import Mathlib

/-!
Shallow embedding of the ActionTracker HTTP service (Express + PostgreSQL).

The repository contains several variants of the same server:
`src/unnamed/part_000`, `src/unnamed/part_001`, `src/unnamed/part_002` and
`src/server.js`.  The definitions below are translated from the cited
handlers and from the SQL they issue (tables `public.trackers` /
`public.actions`, the `actions_local_id_next` BEFORE INSERT trigger, the
`ON DELETE CASCADE` foreign key).  Machine-level JavaScript coercions that
the handlers rely on (`Number(x)` truthiness, string blankness) are modelled
explicitly; request parameters that `Number()` turns into `NaN` (missing or
non-numeric input) are modelled as `none : Option Int`.
-/

namespace ActionTracker

/-- JS truthiness of `Number(x)`: `0` and `NaN` are falsy, any other number is
truthy.  `none` models `NaN`. -/
def jsNumTruthy : Option Int → Bool
  | none => false
  | some n => n != 0

/-- JS truthiness of an optional string body field: `undefined` (absent) and
the empty string are falsy. -/
def jsStrTruthy : Option String → Bool
  | none => false
  | some s => s != ""

/-- JS `String.prototype.trim()`: strips leading and trailing whitespace. -/
def jsTrim (s : String) : String :=
  ⟨((s.data.dropWhile Char.isWhitespace).reverse.dropWhile Char.isWhitespace).reverse⟩

/-- A JSON-ish value stored in a mutable action column. -/
inductive JVal where
  | null
  | str (s : String)
  | num (n : Int)
deriving DecidableEq

/-- A row of `public.trackers` (id BIGSERIAL, name TEXT NOT NULL,
created_at TIMESTAMPTZ DEFAULT now()). -/
structure Tracker where
  id : Int
  name : String
  created_at : Int
deriving DecidableEq

/-- A row of `public.actions` (part_000 schema): serial id, tracker_id
foreign key, the six mutable columns, the per-tracker `local_id`
(nullable INTEGER), and the two timestamps. -/
structure Action where
  id : Int
  tracker_id : Int
  title : JVal
  owner : JVal
  comments : JVal
  status : JVal
  priority : JVal
  due_date : JVal
  local_id : Option Int
  created_at : Int
  updated_at : Int
deriving DecidableEq

/-- Database state: the two tables plus the BIGSERIAL sequences. -/
structure DB where
  trackers : List Tracker
  actions : List Action
  nextTrackerId : Int
  nextActionId : Int
deriving DecidableEq

def emptyDB : DB := { trackers := [], actions := [], nextTrackerId := 1, nextActionId := 1 }

/-- `SELECT COALESCE(MAX(local_id),0) FROM public.actions WHERE tracker_id = $t`:
SQL `MAX` ignores NULLs and `COALESCE` turns an empty maximum into 0. -/
def coalesceMaxLocalId (actions : List Action) (tid : Int) : Int :=
  (actions.filter (fun a => a.tracker_id == tid)).foldl
    (fun m a =>
      match a.local_id with
      | some l => max m l
      | none => m) 0

/-- Embeds the trigger function `public.actions_local_id_next`
(part_000 lines 156-168, identical in part_001): when `NEW.local_id IS NULL`
it is set to `COALESCE(MAX(local_id),0)+1` computed over the rows of the same
tracker that are visible to the inserting statement; an explicitly supplied
`local_id` is left alone. -/
def actions_local_id_next (visible : List Action) (newRow : Action) : Action :=
  match newRow.local_id with
  | none =>
    { newRow with local_id := some (coalesceMaxLocalId visible newRow.tracker_id + 1) }
  | some _ => newRow

/-- One `INSERT INTO public.actions`: the BIGSERIAL assigns the next id, the
BEFORE INSERT trigger fires against the rows visible to the statement, then
the row is appended.  Returns the new state and the persisted row. -/
def insertAction (db : DB) (row : Action) : DB × Action :=
  let fired := actions_local_id_next db.actions { row with id := db.nextActionId }
  ({ db with
      actions := db.actions ++ [fired]
      nextActionId := db.nextActionId + 1 },
   fired)

/-- Two concurrent `INSERT INTO public.actions` transactions for the same
tracker under READ COMMITTED: each BEFORE INSERT trigger reads a snapshot
that does not contain the other, still-uncommitted row, then both rows
commit.  The trigger has no locking (`SELECT ... FOR UPDATE`) and the schema
has no UNIQUE constraint on `(tracker_id, local_id)`, so nothing serializes
the two computations. -/
def concurrentInsertPair (db : DB) (r1 r2 : Action) : DB :=
  let a1 := actions_local_id_next db.actions { r1 with id := db.nextActionId }
  let a2 := actions_local_id_next db.actions { r2 with id := db.nextActionId + 1 }
  { db with
      actions := db.actions ++ [a1, a2]
      nextActionId := db.nextActionId + 2 }

/-- The other interleaving of the same two concurrent inserts: session A
draws the earlier serial id but stalls before its trigger runs; session B
draws the next id, fires its trigger against a snapshot without A's row, and
commits; A's trigger (a VOLATILE PL/pgSQL function, so under READ COMMITTED
its SELECT takes a fresh snapshot) then sees B's committed row.  A's row
thus pairs the smaller id with the larger local_id.  Rows are stored in
commit order. -/
def concurrentInsertCrossed (db : DB) (r1 r2 : Action) : DB :=
  let a2 := actions_local_id_next db.actions { r2 with id := db.nextActionId + 1 }
  let a1 := actions_local_id_next (db.actions ++ [a2]) { r1 with id := db.nextActionId }
  { db with
      actions := db.actions ++ [a2, a1]
      nextActionId := db.nextActionId + 2 }

/-- The spec's wording for the sequencing rule: the maximum of the
`local_id` values present among the existing actions of the tracker,
defaulting to 0 when none exist. -/
def specMaxLocalId (actions : List Action) (tid : Int) : Int :=
  (((actions.filter (fun a => a.tracker_id == tid)).filterMap (fun a => a.local_id)).foldl max 0)

/-! ### The ORDER BY relation of GET /actions

part_000 issues `ORDER BY local_id ASC, id ASC`; in Postgres `ASC` sorts
NULLs last.  part_001 issues `ORDER BY id ASC` only. -/

/-- Strict comparison of nullable `local_id` values under `ASC NULLS LAST`:
a non-NULL value precedes every NULL, NULLs never strictly precede. -/
def lidLt : Option Int → Option Int → Prop
  | some x, some y => x < y
  | some _, none => True
  | none, _ => False

instance : DecidableRel lidLt := fun x y =>
  match x, y with
  | some a, some b => inferInstanceAs (Decidable (a < b))
  | some _, none => inferInstanceAs (Decidable True)
  | none, some _ => inferInstanceAs (Decidable False)
  | none, none => inferInstanceAs (Decidable False)

/-- The row order produced by `ORDER BY local_id ASC, id ASC` (part_000):
lexicographic on (`local_id` with NULLS LAST, `id`). -/
def actionLe (a b : Action) : Prop :=
  lidLt a.local_id b.local_id ∨ (a.local_id = b.local_id ∧ a.id ≤ b.id)

instance : DecidableRel actionLe := fun a b => by
  unfold actionLe; infer_instance

/-- The row order produced by `ORDER BY id ASC` (part_001). -/
def idLe (a b : Action) : Prop := a.id ≤ b.id

instance : DecidableRel idLe := fun a b => inferInstanceAs (Decidable (a.id ≤ b.id))

instance : IsTotal Action actionLe where
  total a b := by
    unfold actionLe
    rcases ha : a.local_id with _ | x <;> rcases hb : b.local_id with _ | y <;>
      simp [lidLt] <;> omega

instance : IsTrans Action actionLe where
  trans a b c hab hbc := by
    unfold actionLe lidLt at hab hbc ⊢
    rcases ha : a.local_id with _ | x <;> rcases hb : b.local_id with _ | y <;>
      rcases hc : c.local_id with _ | z <;> simp_all <;> omega

instance : IsTotal Action idLe where
  total a b := Int.le_total a.id b.id

instance : IsTrans Action idLe where
  trans _ _ _ hab hbc := le_trans hab hbc

/-! ### HTTP handlers -/

/-- GET /actions (part_000 lines 272-288).  `Number(req.query.tracker_id)`
yields NaN on a missing or non-numeric parameter; `if (!trackerId)` answers
400 on NaN and on 0 before any storage call.  Otherwise the handler returns
the tracker's rows `ORDER BY local_id ASC, id ASC`. -/
def getActions_part000 (db : DB) (tracker_id : Option Int) : Nat × List Action :=
  match tracker_id with
  | none => (400, [])
  | some tid =>
    if tid = 0 then (400, [])
    else (200, List.insertionSort actionLe (db.actions.filter (fun a => a.tracker_id == tid)))

/-- GET /actions (part_001 lines 232-254).  `Number.isFinite(trackerId)`
rejects only NaN (so 0 is accepted); the rows come back `ORDER BY id ASC`. -/
def getActions_part001 (db : DB) (tracker_id : Option Int) : Nat × List Action :=
  match tracker_id with
  | none => (400, [])
  | some tid =>
    (200, List.insertionSort idLe (db.actions.filter (fun a => a.tracker_id == tid)))

/-- POST /actions (part_000 lines 290-316).  After destructuring defaults,
the guard `if (!trackerId || !title)` answers 400 when `Number(tracker_id)`
is NaN or 0 or when the title is absent or the empty string; otherwise the
row is inserted with a trimmed title and no `local_id` (the trigger assigns
it). -/
def postActions_part000 (db : DB) (tracker_id : Option Int) (title : Option String)
    (owner comments status due_date : JVal) (priority : Int) (now : Int) : Nat × DB :=
  match tracker_id with
  | none => (400, db)
  | some tid =>
    if tid = 0 then (400, db)
    else
      match title with
      | none => (400, db)
      | some t =>
        if t = "" then (400, db)
        else
          let row : Action :=
            { id := 0, tracker_id := tid, title := .str (jsTrim t), owner := owner,
              comments := comments, status := status, priority := .num priority,
              due_date := due_date, local_id := none, created_at := now, updated_at := now }
          (201, (insertAction db row).1)

/-- POST /trackers (part_000 lines 228-240).  `if (!name || !String(name).trim())`
answers 400 on a missing, empty, or whitespace-only name; otherwise the
trimmed name is inserted and 201 returned. -/
def postTrackers_part000 (db : DB) (name : Option String) (now : Int) : Nat × DB :=
  match name with
  | none => (400, db)
  | some s =>
    if s = "" then (400, db)
    else if jsTrim s = "" then (400, db)
    else
      (201,
       { db with
           trackers := db.trackers ++ [{ id := db.nextTrackerId, name := jsTrim s, created_at := now }]
           nextTrackerId := db.nextTrackerId + 1 })

/-- POST /trackers (src/server.js lines 115-127).  No validation is
performed: `INSERT INTO public.trackers (name) VALUES ($1)` runs directly.
A missing name inserts SQL NULL into the NOT NULL `name` column, the
statement throws, and the catch answers 500; any string (blank included) is
inserted as-is and answered with `res.json`, i.e. status 200. -/
def postTrackers_serverjs (db : DB) (name : Option String) (now : Int) : Nat × DB :=
  match name with
  | none => (500, db)
  | some s =>
    (200,
     { db with
         trackers := db.trackers ++ [{ id := db.nextTrackerId, name := s, created_at := now }]
         nextTrackerId := db.nextTrackerId + 1 })

/-- `DELETE FROM public.trackers WHERE id=$1` with the
`REFERENCES public.trackers(id) ON DELETE CASCADE` foreign key on
`public.actions.tracker_id`: the tracker rows with that id disappear and so
do every action row pointing at them.  Returns the new state and the
statement's rowCount (deleted tracker rows). -/
def deleteTrackerCascade (db : DB) (tid : Int) : DB × Nat :=
  ({ db with
      trackers := db.trackers.filter (fun t => t.id != tid)
      actions := db.actions.filter (fun a => a.tracker_id != tid) },
   (db.trackers.filter (fun t => t.id == tid)).length)

/-- DELETE /trackers/:id (part_000 lines 258-267).  `if (!id)` answers 400 on
NaN or 0; otherwise the cascading delete runs and the body is
`{ok: rowCount > 0}`.  The middle component is the `ok` field (none when the
request was rejected). -/
def deleteTrackers_part000 (db : DB) (id : Option Int) : Nat × Option Bool × DB :=
  match id with
  | none => (400, none, db)
  | some i =>
    if i = 0 then (400, none, db)
    else
      let r := deleteTrackerCascade db i
      (200, some (decide (0 < r.2)), r.1)

/-- DELETE /trackers/:id (part_001 lines 218-229).  `Number.isFinite` rejects
only NaN; the cascading delete runs and the body is always `{ok: true}`,
without consulting the rowCount. -/
def deleteTrackers_part001 (db : DB) (id : Option Int) : Nat × Option Bool × DB :=
  match id with
  | none => (400, none, db)
  | some i =>
    let r := deleteTrackerCascade db i
    (200, some true, r.1)

/-! ### PATCH /actions/:id -/

/-- A PATCH /actions/:id request body.  Each whitelisted key is `some v` when
present (its value may be JSON null) and `none` when absent; `extra` holds
any other keys of the JSON object, which neither handler ever reads. -/
structure PatchBody where
  title : Option JVal
  owner : Option JVal
  comments : Option JVal
  status : Option JVal
  priority : Option JVal
  due_date : Option JVal
  extra : List (String × JVal)
deriving DecidableEq

/-- `sets.length > 0` in part_000 / `fields.length > 0` in part_001: at least
one key of the whitelist `[title, owner, comments, status, priority,
due_date]` is present in the body. -/
def hasMutableField (b : PatchBody) : Bool :=
  b.title.isSome || b.owner.isSome || b.comments.isSome || b.status.isSome ||
    b.priority.isSome || b.due_date.isSome

/-- The SET list built by part_000's whitelist loop, applied to one row; the
raw body values are written.  The `trg_actions_set_updated_at` BEFORE UPDATE
trigger installed by ensureSchema refreshes `updated_at`. -/
def applyPatch_part000 (a : Action) (b : PatchBody) (now : Int) : Action :=
  let a := match b.title with | some v => { a with title := v } | none => a
  let a := match b.owner with | some v => { a with owner := v } | none => a
  let a := match b.comments with | some v => { a with comments := v } | none => a
  let a := match b.status with | some v => { a with status := v } | none => a
  let a := match b.priority with | some v => { a with priority := v } | none => a
  let a := match b.due_date with | some v => { a with due_date := v } | none => a
  { a with updated_at := now }

/-- part_001's coercion of a patched priority value:
`Number.isFinite(Number(v)) ? Number(v) : null` on integral inputs
(`Number(null)` is 0, a numeric string parses, anything else becomes null). -/
def coercePriority_part001 (v : JVal) : JVal :=
  match v with
  | .num n => .num n
  | .null => .num 0
  | .str s =>
    match s.toInt? with
    | some n => .num n
    | none => .null

/-- The SET list of part_001, which additionally coerces `priority` and
appends `updated_at=now()` explicitly. -/
def applyPatch_part001 (a : Action) (b : PatchBody) (now : Int) : Action :=
  let a := match b.title with | some v => { a with title := v } | none => a
  let a := match b.owner with | some v => { a with owner := v } | none => a
  let a := match b.comments with | some v => { a with comments := v } | none => a
  let a := match b.status with | some v => { a with status := v } | none => a
  let a := match b.priority with | some v => { a with priority := coercePriority_part001 v } | none => a
  let a := match b.due_date with | some v => { a with due_date := v } | none => a
  { a with updated_at := now }

/-- PATCH /actions/:id (part_000 lines 318-348): 400 on a falsy id
(`Number` gave NaN or 0), 400 when no whitelisted key is present (before any
storage call), then `UPDATE ... WHERE id=$n`; rowCount 0 answers 404. -/
def patchActions_part000 (db : DB) (id : Option Int) (b : PatchBody) (now : Int) : Nat × DB :=
  match id with
  | none => (400, db)
  | some i =>
    if i = 0 then (400, db)
    else if ¬ hasMutableField b then (400, db)
    else if db.actions.any (fun a => a.id == i) then
      (200,
       { db with
           actions := db.actions.map (fun a => if a.id == i then applyPatch_part000 a b now else a) })
    else (404, db)

/-- PATCH /actions/:id (part_001 lines 288-328): 400 when `Number` gave NaN
(0 passes `Number.isFinite`), 400 when no whitelisted key is present, then
the UPDATE; an empty RETURNING answers 404. -/
def patchActions_part001 (db : DB) (id : Option Int) (b : PatchBody) (now : Int) : Nat × DB :=
  match id with
  | none => (400, db)
  | some i =>
    if ¬ hasMutableField b then (400, db)
    else if db.actions.any (fun a => a.id == i) then
      (200,
       { db with
           actions := db.actions.map (fun a => if a.id == i then applyPatch_part001 a b now else a) })
    else (404, db)

/-- The columns PATCH must never touch, read off one row. -/
def frameFields (a : Action) : Int × Int × Option Int × Int :=
  (a.id, a.tracker_id, a.local_id, a.created_at)

/-! ### Schema provisioning (ensureSchema, part_000 lines 91-187)

The schema state records which of the objects created by `ensureSchema`
exist.  `CREATE TABLE IF NOT EXISTS` and the guarded
`CREATE OR REPLACE FUNCTION` DO blocks never fail; `CREATE TRIGGER` inside
its DO block fails when the trigger already exists, but the guard checks
`pg_trigger` first, so a single sequential invocation never reaches the
failing case. -/

structure SchemaState where
  trackersTable : Bool
  actionsTable : Bool
  fnSetUpdatedAt : Bool
  trgSetUpdatedAt : Bool
  fnLocalIdNext : Bool
  trgSetLocalId : Bool
deriving DecidableEq

def emptySchema : SchemaState :=
  { trackersTable := false, actionsTable := false, fnSetUpdatedAt := false,
    trgSetUpdatedAt := false, fnLocalIdNext := false, trgSetLocalId := false }

def fullSchema : SchemaState :=
  { trackersTable := true, actionsTable := true, fnSetUpdatedAt := true,
    trgSetUpdatedAt := true, fnLocalIdNext := true, trgSetLocalId := true }

/-- `CREATE TRIGGER` (no IF NOT EXISTS form exists in SQL): errors when the
trigger is already present in the catalog. -/
def createTrigger (get : SchemaState → Bool) (put : SchemaState → SchemaState)
    (s : SchemaState) : Except String SchemaState :=
  if get s then .error "trigger already exists" else .ok (put s)

/-- One `DO $$ IF NOT EXISTS (SELECT 1 FROM pg_trigger ...) THEN CREATE
TRIGGER ... $$`: the existence check and the create, executed against the
same state (no concurrent session in between). -/
def doEnsureTrigger (get : SchemaState → Bool) (put : SchemaState → SchemaState)
    (s : SchemaState) : Except String SchemaState :=
  if get s then .ok s else createTrigger get put s

/-- `ensureSchema` (part_000 lines 91-187): the six statements in source
order.  Tables and functions are created idempotently; each trigger is
created through its guarded DO block. -/
def ensureSchema (s : SchemaState) : Except String SchemaState := do
  let s := { s with trackersTable := true }
  let s := { s with actionsTable := true }
  let s := { s with fnSetUpdatedAt := true }
  let s ← doEnsureTrigger (fun s => s.trgSetUpdatedAt)
    (fun s => { s with trgSetUpdatedAt := true }) s
  let s := { s with fnLocalIdNext := true }
  let s ← doEnsureTrigger (fun s => s.trgSetLocalId)
    (fun s => { s with trgSetLocalId := true }) s
  return s

/-- The state reached by the first five statements of `ensureSchema` run
from an empty catalog: everything exists except `trg_actions_set_local_id`. -/
def preLocalIdTriggerSchema : SchemaState :=
  { trackersTable := true, actionsTable := true, fnSetUpdatedAt := true,
    trgSetUpdatedAt := true, fnLocalIdNext := true, trgSetLocalId := false }

/-- Two concurrent `ensureSchema` invocations interleaved at the last DO
block: both sessions have executed the first five statements (all
idempotent), both evaluate the `pg_trigger` existence check before either
`CREATE TRIGGER` commits (each session's catalog snapshot does not contain
the other's uncommitted trigger), then both proceed. -/
def ensureSchemaConcurrentRace : Except String SchemaState :=
  let s := preLocalIdTriggerSchema
  let seenByA := s.trgSetLocalId
  let seenByB := s.trgSetLocalId
  let afterA :=
    if seenByA then Except.ok s
    else createTrigger (fun s => s.trgSetLocalId) (fun s => { s with trgSetLocalId := true }) s
  match afterA with
  | .error e => .error e
  | .ok s1 =>
    if seenByB then Except.ok s1
    else createTrigger (fun s => s.trgSetLocalId) (fun s => { s with trgSetLocalId := true }) s1

/-! ### Startup and health (part_001) -/

/-- The part_001 process state after the `app.listen` callback ran
(lines 330-343): the server is already listening when `ensureSchema` runs;
a failure is caught, stored in `schemaInitError`, and the process does not
exit. -/
structure ServerState where
  listening : Bool
  schemaInitError : Option String
deriving DecidableEq

def startup_part001 (schemaResult : Except String SchemaState) : ServerState :=
  match schemaResult with
  | .ok _ => { listening := true, schemaInitError := none }
  | .error e => { listening := true, schemaInitError := some e }

/-- GET /health (part_001 lines 176-190): `SELECT 1` first; on success the
body carries `schema: {ok:false, error}` when `schemaInitError` is set and
`{ok:true}` otherwise; only a failing DB query answers 500.  Result:
(status, `schema.ok` field when present). -/
def health_part001 (st : ServerState) (dbOk : Bool) : Nat × Option Bool :=
  if dbOk then (200, some st.schemaInitError.isNone)
  else (500, none)

/-! ### Concrete fixtures used by counterexamples and witnesses -/

/-- A fresh database holding one tracker (id 1) and no actions. -/
def oneTrackerDB : DB :=
  { trackers := [{ id := 1, name := "Sprint1", created_at := 0 }],
    actions := [], nextTrackerId := 2, nextActionId := 1 }

/-- The action row a POST /actions request body builds before the serial id
and the trigger run. -/
def mkPostedAction (tid : Int) (t : String) : Action :=
  { id := 0, tracker_id := tid, title := .str t, owner := .null, comments := .null,
    status := .str "open", priority := .num 2, due_date := .null, local_id := none,
    created_at := 0, updated_at := 0 }

/-! ### Theorems -/

/-- C1: two concurrent POST /actions inserts for the same tracker, each
trigger reading the snapshot that precedes the other's commit, persist
`local_id = 1` twice: the stored set of local_id values has a duplicate and
is not `{1, 2}` as the claim demands.  Nothing in the schema (no lock in the
trigger, no UNIQUE constraint on `(tracker_id, local_id)`) prevents this
interleaving. -/
theorem c1_concurrent_inserts_duplicate_local_id :
    ((concurrentInsertPair oneTrackerDB (mkPostedAction 1 "X") (mkPostedAction 1 "Y")).actions.map
        (fun a => a.local_id)) = [some 1, some 1] ∧
    ¬ ((concurrentInsertPair oneTrackerDB (mkPostedAction 1 "X")
        (mkPostedAction 1 "Y")).actions.map (fun a => a.local_id)).Nodup := by
  exact ⟨rfl, by decide⟩

/-- C3 counterexample: the POST /trackers handler of `src/server.js` answers
a whitespace-only name with status 200 and persists the row, where the claim
demands 400 and an unchanged trackers table. -/
theorem c3_serverjs_accepts_blank_name :
    (postTrackers_serverjs emptyDB (some "   ") 0).1 = 200 ∧
    ((postTrackers_serverjs emptyDB (some "   ") 0).2).trackers.length = 1 :=
  ⟨rfl, rfl⟩

/-- C3 amended: the part_000 handler answers 400 and leaves the table
unchanged on a missing, empty, or whitespace-only name and 201 with the
trimmed row appended otherwise; the `src/server.js` handler performs no
validation: any supplied string (blank included) is inserted and answered
200, and a missing name hits the NOT NULL constraint and is answered 500. -/
theorem c3_postTrackers_validation (db : DB) (name : Option String) (now : Int) :
    (name = none → postTrackers_part000 db name now = (400, db)) ∧
    (∀ s, name = some s → jsTrim s = "" → postTrackers_part000 db name now = (400, db)) ∧
    (∀ s, name = some s → jsTrim s ≠ "" →
      (postTrackers_part000 db name now).1 = 201 ∧
      ((postTrackers_part000 db name now).2).trackers
        = db.trackers ++ [{ id := db.nextTrackerId, name := jsTrim s, created_at := now }]) ∧
    (∀ s, name = some s →
      (postTrackers_serverjs db name now).1 = 200 ∧
      ((postTrackers_serverjs db name now).2).trackers
        = db.trackers ++ [{ id := db.nextTrackerId, name := s, created_at := now }]) ∧
    (name = none → postTrackers_serverjs db name now = (500, db)) := by
  refine ⟨fun h => by subst h; rfl, ?_, ?_, ?_, fun h => by subst h; rfl⟩
  · intro s hs htrim
    subst hs
    by_cases h : s = ""
    · subst h; rfl
    · simp [postTrackers_part000, h, htrim]
  · intro s hs htrim
    subst hs
    have h : s ≠ "" := by
      intro h; subst h; exact htrim rfl
    simp [postTrackers_part000, h, htrim]
  · intro s hs
    subst hs
    exact ⟨rfl, rfl⟩

/-- Witness for C3: evaluating both handlers at concrete names through the
theorem itself. -/
theorem c3_postTrackers_validation_witness :
    postTrackers_part000 emptyDB (some "   ") 5 = (400, emptyDB) ∧
    (postTrackers_part000 emptyDB (some " T1 ") 5).1 = 201 ∧
    (postTrackers_serverjs emptyDB (some "   ") 5).1 = 200 :=
  ⟨(c3_postTrackers_validation emptyDB (some "   ") 5).2.1 "   " rfl (by decide),
   ((c3_postTrackers_validation emptyDB (some " T1 ") 5).2.2.1 " T1 " rfl (by decide)).1,
   ((c3_postTrackers_validation emptyDB (some "   ") 5).2.2.2.1 "   " rfl).1⟩

/-- C7 counterexample: an interleaving of two concurrent `ensureSchema`
invocations in which both sessions evaluate the `pg_trigger` existence check
for `trg_actions_set_local_id` before either `CREATE TRIGGER` commits makes
the second `CREATE TRIGGER` fail, so concurrent invocation is not error-free
as claimed. -/
theorem c7_concurrent_ensureSchema_errors :
    ensureSchemaConcurrentRace = Except.error "trigger already exists" := rfl

/-- C7 amended: invoked sequentially, `ensureSchema` succeeds from every
schema state without error and always yields the same full schema (hence any
number of sequential invocations equals a single one and duplicates
nothing); only concurrent invocation can fail, through the check-then-create
race on `CREATE TRIGGER`. -/
theorem c7_ensureSchema_sequential_idempotent (s : SchemaState) :
    ensureSchema s = Except.ok fullSchema ∧
    ensureSchema fullSchema = Except.ok fullSchema := by
  constructor
  · rcases s with ⟨a, b, c, d, e, f⟩
    cases d <;> cases f <;> rfl
  · rfl

/-- C8: when schema provisioning fails at startup, the part_001 process
keeps listening (the error is caught and stored, the process does not
exit), and while the database itself is reachable GET /health answers 200
with `schema.ok = false`, making the failure observable. -/
theorem c8_schema_failure_is_degraded_not_fatal (e : String) :
    (startup_part001 (Except.error e)).listening = true ∧
    health_part001 (startup_part001 (Except.error e)) true = (200, some false) ∧
    health_part001 (startup_part001 (Except.ok fullSchema)) true = (200, some true) :=
  ⟨rfl, rfl, rfl⟩

/-! ### Helper lemmas -/

theorem foldl_localId_max (l : List Action) (acc : Int) :
    l.foldl (fun m a => match a.local_id with | some v => max m v | none => m) acc
      = (l.filterMap (fun a => a.local_id)).foldl max acc := by
  induction l generalizing acc with
  | nil => rfl
  | cons a t ih =>
    cases h : a.local_id with
    | none => simp [List.filterMap_cons, h, ih]
    | some v => simp [List.filterMap_cons, h, ih]

/-- The trigger's `COALESCE(MAX(local_id),0)` agrees with the spec's
`max(local_id for existing actions with same tracker_id)` defaulting to 0. -/
theorem coalesceMax_eq_specMax (actions : List Action) (tid : Int) :
    coalesceMaxLocalId actions tid = specMaxLocalId actions tid := by
  unfold coalesceMaxLocalId specMaxLocalId
  exact foldl_localId_max _ 0

theorem patch_frame_aux (l : List Action) (i : Int) (f : Action → Action)
    (hf : ∀ a, frameFields (f a) = frameFields a) :
    (l.map (fun a => if a.id == i then f a else a)).map frameFields
      = l.map frameFields := by
  rw [List.map_map]
  refine List.map_congr_left ?_
  intro a _
  by_cases h : a.id = i <;> simp [h, hf]

theorem applyPatch_part000_frame (a : Action) (b : PatchBody) (now : Int) :
    frameFields (applyPatch_part000 a b now) = frameFields a := by
  rcases b with ⟨t, o, c, st, p, d, e⟩
  cases t <;> cases o <;> cases c <;> cases st <;> cases p <;> cases d <;> rfl

theorem applyPatch_part001_frame (a : Action) (b : PatchBody) (now : Int) :
    frameFields (applyPatch_part001 a b now) = frameFields a := by
  rcases b with ⟨t, o, c, st, p, d, e⟩
  cases t <;> cases o <;> cases c <;> cases st <;> cases p <;> cases d <;> rfl

/-! ### Theorems for the remaining claims -/

/-- C2: an insert whose row carries no `local_id` is assigned
`max(local_id over existing actions of the tracker) + 1`, which is 1 when
the tracker has no prior actions; an explicitly supplied `local_id` is
persisted untouched. -/
theorem c2_assigned_local_id (db : DB) (row : Action) (h : row.local_id = none) :
    ((insertAction db row).2).local_id
      = some (specMaxLocalId db.actions row.tracker_id + 1) ∧
    ((db.actions.filter (fun a => a.tracker_id == row.tracker_id)) = [] →
      ((insertAction db row).2).local_id = some 1) ∧
    (∀ r v, r.local_id = some v → ((insertAction db r).2).local_id = some v) := by
  refine ⟨?_, ?_, ?_⟩
  · simp [insertAction, actions_local_id_next, h, coalesceMax_eq_specMax]
  · intro hempty
    simp [insertAction, actions_local_id_next, h, coalesceMaxLocalId, hempty]
  · intro r v hr
    simp [insertAction, actions_local_id_next, hr]

/-- A tracker with two actions already numbered 1 and 2. -/
def twoActionDB : DB :=
  { trackers := [{ id := 1, name := "T", created_at := 0 }],
    actions :=
      [{ mkPostedAction 1 "A" with id := 1, local_id := some 1 },
       { mkPostedAction 1 "B" with id := 2, local_id := some 2 }],
    nextTrackerId := 2, nextActionId := 3 }

/-- Witness for C2: inserting into a tracker whose actions hold local_ids
{1,2} assigns 3; inserting into an empty database assigns 1; an explicit
local_id 7 survives. -/
theorem c2_assigned_local_id_witness :
    (mkPostedAction 1 "Z").local_id = none ∧
    ((insertAction twoActionDB (mkPostedAction 1 "Z")).2).local_id = some 3 ∧
    ((insertAction emptyDB (mkPostedAction 1 "A")).2).local_id = some 1 ∧
    ((insertAction emptyDB { mkPostedAction 1 "B" with local_id := some 7 }).2).local_id
      = some 7 :=
  ⟨rfl,
   ((c2_assigned_local_id twoActionDB (mkPostedAction 1 "Z") rfl).1).trans (by decide),
   (c2_assigned_local_id emptyDB (mkPostedAction 1 "A") rfl).2.1 rfl,
   (c2_assigned_local_id emptyDB (mkPostedAction 1 "A") rfl).2.2
     { mkPostedAction 1 "B" with local_id := some 7 } 7 rfl⟩

/-- C4 counterexample: after the crossed concurrent-insert interleaving on a
fresh tracker, the part_001 GET /actions handler (which orders by id only)
returns the two rows with local_id values [2, 1]: the returned array is not
ordered by ascending local_id as the claim demands, although tracker_id 1 is
valid and numeric. -/
theorem c4_part001_returns_descending_local_id :
    ((getActions_part001
        (concurrentInsertCrossed oneTrackerDB (mkPostedAction 1 "X") (mkPostedAction 1 "Y"))
        (some 1)).2).map (fun a => a.local_id) = [some 2, some 1] ∧
    ¬ List.Sorted actionLe
      (getActions_part001
        (concurrentInsertCrossed oneTrackerDB (mkPostedAction 1 "X") (mkPostedAction 1 "Y"))
        (some 1)).2 := by
  exact ⟨rfl, by decide⟩

/-- C4 amended: with a valid numeric tracker_id the part_000 handler answers 200
with exactly the actions of that tracker, ordered by ascending local_id then
id, and the output is untouched by extra rows under other trackers; the
part_001 handler answers 200 with the same rows ordered by id, an order that
also respects (local_id, id) whenever local_id is monotone in id among the
tracker's rows; both handlers answer 400 when tracker_id is missing or
non-numeric. -/
theorem c4_getActions_rows (db : DB) (q : Option Int) :
    (q = none → getActions_part000 db q = (400, []) ∧ getActions_part001 db q = (400, [])) ∧
    (∀ tid, q = some tid → tid ≠ 0 →
      (getActions_part000 db q).1 = 200 ∧
      ((getActions_part000 db q).2).Perm (db.actions.filter (fun a => a.tracker_id == tid)) ∧
      (∀ a, a ∈ (getActions_part000 db q).2 ↔ a ∈ db.actions ∧ a.tracker_id = tid) ∧
      List.Sorted actionLe (getActions_part000 db q).2 ∧
      (∀ b : Action, b.tracker_id ≠ tid →
        getActions_part000 { db with actions := db.actions ++ [b] } q
          = getActions_part000 db q) ∧
      (getActions_part001 db q).1 = 200 ∧
      ((getActions_part001 db q).2).Perm (db.actions.filter (fun a => a.tracker_id == tid)) ∧
      List.Sorted idLe (getActions_part001 db q).2 ∧
      ((∀ a b, a ∈ db.actions → b ∈ db.actions → a.tracker_id = tid → b.tracker_id = tid →
          a.id ≤ b.id → actionLe a b) →
        List.Sorted actionLe (getActions_part001 db q).2)) := by
  constructor
  · intro h; subst h; exact ⟨rfl, rfl⟩
  · intro tid hq h0
    subst hq
    simp only [getActions_part000, getActions_part001, if_neg h0]
    refine ⟨trivial, List.perm_insertionSort _ _, ?_, List.sorted_insertionSort _ _, ?_,
      trivial, List.perm_insertionSort _ _, List.sorted_insertionSort _ _, ?_⟩
    · intro a
      rw [(List.perm_insertionSort _ _).mem_iff, List.mem_filter]
      simp
    · intro b hb
      have hfil : (db.actions ++ [b]).filter (fun a => a.tracker_id == tid)
          = db.actions.filter (fun a => a.tracker_id == tid) := by
        rw [List.filter_append]
        simp [hb]
      simp [getActions_part000, if_neg h0, hfil]
    · intro hm
      have hp := List.perm_insertionSort idLe (db.actions.filter (fun a => a.tracker_id == tid))
      have hs := List.sorted_insertionSort idLe (db.actions.filter (fun a => a.tracker_id == tid))
      refine List.Pairwise.imp_of_mem ?_ hs
      intro a b ha hb hab
      have ha' := List.mem_filter.mp (hp.subset ha)
      have hb' := List.mem_filter.mp (hp.subset hb)
      exact hm a b ha'.1 hb'.1 (by simpa using ha'.2) (by simpa using hb'.2) hab

/-- A database with actions under two trackers, inserted in mixed order. -/
def mixedDB : DB :=
  { trackers := [{ id := 1, name := "T1", created_at := 0 },
                 { id := 2, name := "T2", created_at := 0 }],
    actions :=
      [{ mkPostedAction 2 "B1" with id := 1, local_id := some 1 },
       { mkPostedAction 1 "A1" with id := 2, local_id := some 1 },
       { mkPostedAction 2 "B2" with id := 3, local_id := some 2 },
       { mkPostedAction 1 "A2" with id := 4, local_id := some 2 }],
    nextTrackerId := 3, nextActionId := 5 }

/-- Witness for C4: tracker 1 of `mixedDB` comes back with status 200,
in (local_id, id) order, through the theorem itself. -/
theorem c4_getActions_rows_witness :
    (getActions_part000 mixedDB (some 1)).1 = 200 ∧
    List.Sorted actionLe (getActions_part000 mixedDB (some 1)).2 ∧
    (getActions_part000 mixedDB none).1 = 400 :=
  ⟨((c4_getActions_rows mixedDB (some 1)).2 1 rfl (by decide)).1,
   ((c4_getActions_rows mixedDB (some 1)).2 1 rfl (by decide)).2.2.2.1,
   congrArg Prod.fst ((c4_getActions_rows mixedDB none).1 rfl).1⟩

/-- C5: with a valid id, a PATCH /actions body containing none of the six
mutable fields is answered 400 with the database (hence the targeted row)
unchanged, and a body containing a recognized field targeting an id no row
carries is answered 404, in both the part_000 and part_001 handlers. -/
theorem c5_patch_empty_and_missing (db : DB) (i : Int) (b : PatchBody) (now : Int)
    (hi : i ≠ 0) :
    (hasMutableField b = false →
      patchActions_part000 db (some i) b now = (400, db) ∧
      patchActions_part001 db (some i) b now = (400, db)) ∧
    (hasMutableField b = true → (∀ a ∈ db.actions, a.id ≠ i) →
      patchActions_part000 db (some i) b now = (404, db) ∧
      patchActions_part001 db (some i) b now = (404, db)) := by
  constructor
  · intro h
    exact ⟨by simp [patchActions_part000, hi, h], by simp [patchActions_part001, h]⟩
  · intro h habs
    have hany : db.actions.any (fun a => a.id == i) = false := by
      simp only [List.any_eq_false]
      intro a ha
      simpa using habs a ha
    exact ⟨by simp [patchActions_part000, hi, h, hany],
           by simp [patchActions_part001, h, hany]⟩

/-- An empty PATCH body and one carrying only a title. -/
def emptyPatch : PatchBody :=
  { title := none, owner := none, comments := none, status := none,
    priority := none, due_date := none, extra := [] }

def titlePatch : PatchBody := { emptyPatch with title := some (.str "new title") }

/-- Witness for C5: against `twoActionDB`, an empty patch on id 1 is a 400
no-op and a title patch on the absent id 9 is a 404, via the theorem. -/
theorem c5_patch_empty_and_missing_witness :
    patchActions_part000 twoActionDB (some 1) emptyPatch 9 = (400, twoActionDB) ∧
    patchActions_part000 twoActionDB (some 9) titlePatch 9 = (404, twoActionDB) ∧
    patchActions_part001 twoActionDB (some 9) titlePatch 9 = (404, twoActionDB) :=
  ⟨((c5_patch_empty_and_missing twoActionDB 1 emptyPatch 9 (by decide)).1 rfl).1,
   ((c5_patch_empty_and_missing twoActionDB 9 titlePatch 9 (by decide)).2 rfl
      (by decide)).1,
   ((c5_patch_empty_and_missing twoActionDB 9 titlePatch 9 (by decide)).2 rfl
      (by decide)).2⟩

/-- C6 counterexample: the part_001 DELETE /trackers handler answers
`{ok: true}` for id 5 against an empty database, although no tracker with
that id existed, so `ok` is not "true exactly when the tracker existed". -/
theorem c6_part001_ok_true_without_tracker :
    (deleteTrackers_part001 emptyDB (some 5)).2.1 = some true ∧
    emptyDB.trackers = [] :=
  ⟨rfl, rfl⟩

/-- C6 amended: both DELETE /trackers handlers answer 200 and remove the
tracker row together with every action under it (no orphans remain); the
part_000 body has `ok` true exactly when a tracker with that id existed,
while the part_001 body is always `{ok: true}` regardless of existence. -/
theorem c6_deleteTracker_cascade (db : DB) (i : Int) (hi : i ≠ 0) :
    (deleteTrackers_part000 db (some i)).1 = 200 ∧
    ((deleteTrackers_part000 db (some i)).2.1 = some true ↔ ∃ t ∈ db.trackers, t.id = i) ∧
    ((deleteTrackers_part000 db (some i)).2.2).trackers
      = db.trackers.filter (fun t => t.id != i) ∧
    ((deleteTrackers_part000 db (some i)).2.2).actions
      = db.actions.filter (fun a => a.tracker_id != i) ∧
    (∀ t ∈ ((deleteTrackers_part000 db (some i)).2.2).trackers, t.id ≠ i) ∧
    (∀ a ∈ ((deleteTrackers_part000 db (some i)).2.2).actions, a.tracker_id ≠ i) ∧
    (deleteTrackers_part001 db (some i)).1 = 200 ∧
    (deleteTrackers_part001 db (some i)).2.1 = some true ∧
    ((deleteTrackers_part001 db (some i)).2.2).trackers
      = db.trackers.filter (fun t => t.id != i) ∧
    ((deleteTrackers_part001 db (some i)).2.2).actions
      = db.actions.filter (fun a => a.tracker_id != i) := by
  simp only [deleteTrackers_part000, deleteTrackers_part001, deleteTrackerCascade, if_neg hi]
  refine ⟨trivial, ?_, trivial, trivial, ?_, ?_, trivial, trivial, trivial, trivial⟩
  · rw [Option.some_inj, decide_eq_true_iff, List.length_pos_iff_ne_nil]
    simp [List.filter_eq_nil_iff]
  · intro t ht
    simpa using (List.mem_filter.mp ht).2
  · intro a ha
    simpa using (List.mem_filter.mp ha).2

/-- Witness for C6: deleting tracker 1 of `mixedDB` reports ok and leaves no
action of tracker 1 behind, via the theorem. -/
theorem c6_deleteTracker_cascade_witness :
    (deleteTrackers_part000 mixedDB (some 1)).1 = 200 ∧
    (∀ a ∈ ((deleteTrackers_part000 mixedDB (some 1)).2.2).actions, a.tracker_id ≠ 1) :=
  ⟨(c6_deleteTracker_cascade mixedDB 1 (by decide)).1,
   (c6_deleteTracker_cascade mixedDB 1 (by decide)).2.2.2.2.2.1⟩

/-- C9: both the POST /actions and GET /actions handlers of part_000 test
`Number(tracker_id)` for truthiness, so a request whose tracker_id coerces
to 0 or NaN is answered 400 with the database untouched, before any storage
call. -/
theorem c9_falsy_tracker_id_rejected (db : DB) (q : Option Int) (title : Option String)
    (owner comments status due_date : JVal) (priority now : Int)
    (h : q = some 0 ∨ q = none) :
    postActions_part000 db q title owner comments status due_date priority now = (400, db) ∧
    getActions_part000 db q = (400, []) := by
  rcases h with h | h <;> subst h
  · exact ⟨by simp [postActions_part000], by simp [getActions_part000]⟩
  · exact ⟨rfl, rfl⟩

/-- Witness for C9: tracker_id 0 and a NaN tracker_id are both answered 400,
via the theorem. -/
theorem c9_falsy_tracker_id_rejected_witness :
    postActions_part000 emptyDB (some 0) (some "T") .null .null (.str "open") .null 2 0
      = (400, emptyDB) ∧
    getActions_part000 emptyDB none = (400, []) :=
  ⟨(c9_falsy_tracker_id_rejected emptyDB (some 0) (some "T") .null .null (.str "open") .null
      2 0 (Or.inl rfl)).1,
   (c9_falsy_tracker_id_rejected emptyDB none (some "T") .null .null (.str "open") .null
      2 0 (Or.inr rfl)).2⟩

/-- C10: both PATCH /actions handlers leave id, tracker_id, local_id and
created_at of every stored row unchanged (the SET list is built from the
whitelist only), and any key outside the whitelist has no effect on the
response or the database. -/
theorem c10_patch_whitelist_frame (db : DB) (id : Option Int) (b : PatchBody) (now : Int) :
    ((patchActions_part000 db id b now).2).actions.map frameFields
      = db.actions.map frameFields ∧
    ((patchActions_part001 db id b now).2).actions.map frameFields
      = db.actions.map frameFields ∧
    (∀ e, patchActions_part000 db id { b with extra := e } now
      = patchActions_part000 db id b now) ∧
    (∀ e, patchActions_part001 db id { b with extra := e } now
      = patchActions_part001 db id b now) := by
  refine ⟨?_, ?_, fun e => rfl, fun e => rfl⟩
  · rcases id with _ | i
    · rfl
    · by_cases h0 : i = 0
      · simp [patchActions_part000, h0]
      · by_cases hmf : hasMutableField b
        · by_cases hany : db.actions.any (fun a => a.id == i)
          · simp only [patchActions_part000, if_neg h0, hmf, hany, not_true, if_neg,
              if_true, ite_true, ite_false]
            exact patch_frame_aux db.actions i (fun a => applyPatch_part000 a b now)
              (fun a => applyPatch_part000_frame a b now)
          · simp [patchActions_part000, if_neg h0, hmf, hany]
        · simp [patchActions_part000, if_neg h0, hmf]
  · rcases id with _ | i
    · rfl
    · by_cases hmf : hasMutableField b
      · by_cases hany : db.actions.any (fun a => a.id == i)
        · simp only [patchActions_part001, hmf, hany, not_true, if_true, ite_true, ite_false]
          exact patch_frame_aux db.actions i (fun a => applyPatch_part001 a b now)
            (fun a => applyPatch_part001_frame a b now)
        · simp [patchActions_part001, hmf, hany]
      · simp [patchActions_part001, hmf]

end ActionTracker
